import Mathlib

/-!
Shallow embedding of `src/main.py` (thulibfront): a credential-bridging and
hierarchical-query engine for a library seat-reservation backend.

Network and clock effects are made explicit parameters:
* an HTTP response is a status code plus an optionally-decodable JSON body;
* the wall clock is an epoch-seconds value `t : Nat` together with a
  time-zone, modelled as a UTC-offset function `tz : Nat → Nat` (seconds
  east of UTC at a given instant; a constant function is a fixed-offset
  zone, a non-constant one models a DST transition);
* the decoded `data.list` payload of each endpoint is passed as a list of
  typed rows (the fields the comprehensions read).
-/

/-- Minimal JSON value model for the envelope contract of `get_json`. -/
inductive Json where
  | null
  | bool (b : Bool)
  | num (n : Int)
  | str (s : String)
  | arr (xs : List Json)
  | obj (fields : List (String × Json))

/-- Field lookup `j[key]` on a JSON object; `none` models the `KeyError` /
`TypeError` raise paths of Python indexing. -/
def Json.getField (j : Json) (key : String) : Option Json :=
  match j with
  | .obj fields => fields.lookup key
  | _ => none

/-- Error taxonomy of the run (all Python raises are fatal). -/
inductive QError where
  | transport
  | protocol
  | invariant
deriving DecidableEq

/-- An HTTP response: status code, and `some` decoded body when the body is
valid JSON (`none` models `response.json()` raising). -/
structure HttpResponse where
  status_code : Nat
  body : Option Json

/-- Embeds `LibQuery.get_json` (src/main.py:81-88): assert HTTP 200, decode
the body, assert the envelope's `status` field is `1`, and return the whole
decoded envelope. -/
def get_json (response : HttpResponse) : Except QError Json :=
  if response.status_code = 200 then
    match response.body with
    | some response_json =>
      match response_json.getField "status" with
      | some (.num n) => if n = 1 then .ok response_json else .error .protocol
      | _ => .error .protocol
    | none => .error .protocol
  else .error .transport

/-! ### Clock and calendar model

`time.localtime` followed by `time.strftime` turns epoch seconds into a
local civil date/time.  We embed the Gregorian civil mapping: local epoch
day `n` (days since 1970-01-01 in local time) maps to the `n`-th calendar
successor of 1970-01-01. -/

/-- A Gregorian calendar date. -/
structure Date where
  year : Nat
  month : Nat
  day : Nat
deriving DecidableEq

/-- Gregorian leap-year rule. -/
def isLeap (y : Nat) : Bool :=
  y % 4 == 0 && (y % 100 != 0 || y % 400 == 0)

/-- Number of days in a month. -/
def daysInMonth (y m : Nat) : Nat :=
  if m = 2 then (if isLeap y then 29 else 28)
  else if m = 4 ∨ m = 6 ∨ m = 9 ∨ m = 11 then 30
  else 31

/-- The calendar successor of a date: "plus exactly one calendar day". -/
def nextDate (d : Date) : Date :=
  if d.day < daysInMonth d.year d.month then ⟨d.year, d.month, d.day + 1⟩
  else if d.month < 12 then ⟨d.year, d.month + 1, 1⟩
  else ⟨d.year + 1, 1, 1⟩

/-- Civil date of local epoch day `n`: the `n`-th calendar day after
1970-01-01.  This is the date component computed by `time.localtime`. -/
def dateOfDays : Nat → Date
  | 0 => ⟨1970, 1, 1⟩
  | n + 1 => nextDate (dateOfDays n)

/-- Left-pad a numeral to two digits, as `strftime` does for `%m`/`%d`. -/
def pad2 (n : Nat) : String :=
  if n < 10 then "0" ++ toString n else toString n

/-- `strftime("%Y-%m-%d", ·)` on a civil date. -/
def formatDate (d : Date) : String :=
  toString d.year ++ "-" ++ pad2 d.month ++ "-" ++ pad2 d.day

/-- The civil date of `time.localtime(t)` in time zone `tz` (UTC-offset
function, seconds east of UTC at each instant). -/
def localDate (tz : Nat → Nat) (t : Nat) : Date :=
  dateOfDays ((t + tz t) / 86400)

/-- Logical day tag (`Day = enum.Enum("Day", "Today Tomorrow")`,
src/main.py:47). -/
inductive Day where
  | Today
  | Tomorrow
deriving DecidableEq

/-- Embeds the date resolution shared by `get_library_sections`
(src/main.py:123-126) and `get_library_day` (src/main.py:150-153):
`time.strftime("%Y-%m-%d", time.localtime(time.time() + (86400 if day ==
day.Tomorrow else 0)))`, as a civil date. -/
def resolveDate (tz : Nat → Nat) (t : Nat) (day : Day) : Date :=
  localDate tz (t + (if day = Day.Tomorrow then 86400 else 0))

/-- The date string actually interpolated into the request URL. -/
def resolveDateString (tz : Nat → Nat) (t : Nat) (day : Day) : String :=
  formatDate (resolveDate tz t day)

/-- `time.strftime("%H:%M", time.localtime())` (src/main.py:173): the local
wall-clock time truncated to minutes. -/
def localHM (tz : Nat → Nat) (t : Nat) : String :=
  let secs := (t + tz t) % 86400
  pad2 (secs / 3600) ++ ":" ++ pad2 (secs % 3600 / 60)

/-! ### Entities and payload rows

Row structures carry the fields each list comprehension reads from a
`data_list` entry; entity structures mirror the dataclasses of
src/main.py:20-65. -/

/-- Fields read from a `data` entry of `areas/1/tree/1` (src/main.py:93-102). -/
structure LibraryRow where
  id : Int
  name : String
  nameMerge : String
  enname : String
  ennameMerge : String
  isValid : Int
deriving DecidableEq

/-- The `Library` dataclass (src/main.py:20-26). -/
structure Library where
  id : Int
  name : String
  nameMerge : String
  enname : String
  ennameMerge : String
deriving DecidableEq

/-- Fields read from a `childArea` entry of `areas/{id}` (src/main.py:109-117). -/
structure FloorRow where
  id : Int
  name : String
  enname : String
  isValid : Int
deriving DecidableEq

/-- The `LibraryFloor` dataclass (src/main.py:29-34). -/
structure LibraryFloor where
  id : Int
  name : String
  enname : String
  parent : Int
deriving DecidableEq

/-- Fields read from a `childArea` entry of `areas/{id}/date/{date}`
(src/main.py:132-142). -/
structure SectionRow where
  id : Int
  name : String
  enname : String
  TotalCount : Int
  UnavailableSpace : Int
  isValid : Int
deriving DecidableEq

/-- The `LibrarySection` dataclass (src/main.py:37-44). -/
structure LibrarySection where
  id : Int
  name : String
  enname : String
  total : Int
  available : Int
  parent : Int
deriving DecidableEq

/-- Fields read from a `data` entry of `areadays/{id}` (src/main.py:156-165);
`startTimeDate`/`endTimeDate` are the nested `["startTime"]["date"]` /
`["endTime"]["date"]` strings. -/
structure DayRow where
  id : Int
  day : String
  startTimeDate : String
  endTimeDate : String
deriving DecidableEq

/-- The `LibraryDay` dataclass (src/main.py:50-56). -/
structure LibraryDay where
  id : Int
  date : String
  startTime : String
  endTime : String
  day : Day
deriving DecidableEq

/-- Fields read from a `data` entry of `spaces_old/` (src/main.py:185-193). -/
structure SeatRow where
  id : Int
  name : String
  area_type : Int
  status : Int
deriving DecidableEq

/-- The `LibrarySeat` dataclass (src/main.py:59-65). -/
structure LibrarySeat where
  id : Int
  name : String
  type : Int
  status : Int
  parent : Int
deriving DecidableEq

/-- The global seat-status label table `status_dict` (src/main.py:68-73). -/
def status_dict : List (Int × String) :=
  [(1, "空闲"), (4, "维护"), (6, "使用中"), (7, "临时离开")]

/-! ### Hierarchy traversal operations

Each operation is embedded from the point where `data_list` has been
extracted from the envelope; the decoded rows are an explicit argument. -/

/-- Entity built from one valid `areas/1/tree/1` row (src/main.py:94-100). -/
def mkLibrary (data : LibraryRow) : Library :=
  { id := data.id, name := data.name, nameMerge := data.nameMerge,
    enname := data.enname, ennameMerge := data.ennameMerge }

/-- Embeds the comprehension of `LibQuery.get_library_list`
(src/main.py:93-103): keep rows with `isValid == 1`, build `Library`s. -/
def get_library_list (data_list : List LibraryRow) : List Library :=
  (data_list.filter fun data => data.isValid == 1).map mkLibrary

/-- Entity built from one valid `childArea` row (src/main.py:110-115). -/
def mkFloor (library : Library) (data : FloorRow) : LibraryFloor :=
  { id := data.id, name := data.name, enname := data.enname,
    parent := library.id }

/-- Embeds the comprehension of `LibQuery.get_library_floors`
(src/main.py:109-118). -/
def get_library_floors (library : Library) (data_list : List FloorRow) :
    List LibraryFloor :=
  (data_list.filter fun data => data.isValid == 1).map (mkFloor library)

/-- Entity built from one valid section row (src/main.py:133-140):
`available = TotalCount - UnavailableSpace`. -/
def mkSection (floor : LibraryFloor) (data : SectionRow) : LibrarySection :=
  { id := data.id, name := data.name, enname := data.enname,
    total := data.TotalCount,
    available := data.TotalCount - data.UnavailableSpace,
    parent := floor.id }

/-- Embeds `LibQuery.get_library_sections` (src/main.py:131-145): filter
valid rows, build sections, and `sorted(..., key=lambda x: x.id)` (Python's
stable mergesort on the `id` key). -/
def get_library_sections (floor : LibraryFloor) (data_list : List SectionRow) :
    List LibrarySection :=
  ((data_list.filter fun data => data.isValid == 1).map (mkSection floor)).mergeSort
    fun a b => decide (a.id ≤ b.id)

/-- Day-segment built from one `areadays` row (src/main.py:157-163); the
`[11:16]` slice extracts `HH:MM` from the timestamp string. -/
def mkDay (day : Day) (data : DayRow) : LibraryDay :=
  { id := data.id, date := data.day,
    startTime := (data.startTimeDate.drop 11).take 5,
    endTime := (data.endTimeDate.drop 11).take 5,
    day := day }

/-- Embeds `LibQuery.get_library_day` (src/main.py:147-168): resolve the
date, keep the rows whose `day` field equals it, `assert len(the_day) == 1`
(`.error .invariant` models the failed assert), return the unique match. -/
def get_library_day (day : Day) (tz : Nat → Nat) (t : Nat)
    (data_list : List DayRow) : Except QError LibraryDay :=
  let date := resolveDateString tz t day
  let the_day := (data_list.filter fun data => data.day == date).map (mkDay day)
  match the_day with
  | [d] => .ok d
  | _ => .error .invariant

/-- The query parameters of the `spaces_old/` request (src/main.py:176-182). -/
structure SeatsQuery where
  area : Int
  segment : Int
  day : String
  startTime : String
  endTime : String
deriving DecidableEq

/-- Embeds the parameter dict of `LibQuery.get_library_seats`
(src/main.py:173-182): `startTime` is the current truncated-to-minute
wall clock when the day-tag is `Today`, the segment's own `startTime`
otherwise; `endTime` is the segment's `endTime`. -/
def seats_query (sect : LibrarySection) (day : LibraryDay)
    (tz : Nat → Nat) (t : Nat) : SeatsQuery :=
  let now := localHM tz t
  { area := sect.id, segment := day.id, day := day.date,
    startTime := if day.day = Day.Today then now else day.startTime,
    endTime := day.endTime }

/-- Seat built from one `spaces_old` row (src/main.py:186-192). -/
def mkSeat (sect : LibrarySection) (data : SeatRow) : LibrarySeat :=
  { id := data.id, name := data.name, type := data.area_type,
    status := data.status, parent := sect.id }

/-- Embeds the comprehension of `LibQuery.get_library_seats`
(src/main.py:185-194): every returned row is kept, no validity filter. -/
def get_library_seats (sect : LibrarySection) (data_list : List SeatRow) :
    List LibrarySeat :=
  data_list.map (mkSeat sect)

/-! ### Browser login model

`webvpn_login` / `webvpn_login_manual` (src/main.py:197-266) drive a
browser inside `try ... finally: driver.quit()`.  Each fallible browser
call is a boolean in an environment record (`true` = the call succeeds,
`false` = it raises a WebDriverException); the poll loop / the blocking
`input()` may also never terminate.  The result is the operation's outcome
together with the trace of browser lifecycle events. -/

/-- One browser cookie, as read by `driver.get_cookies()` and transferred
into the `requests.Session` (src/main.py:219-225). -/
structure Cookie where
  name : String
  value : String
  domain : String
  path : String
deriving DecidableEq

/-- The `LibQuery` transport context handed back on success: the session's
cookie jar plus the fixed `User-Agent` header (src/main.py:218-234). -/
structure TransportContext where
  cookies : List Cookie
  userAgent : String
deriving DecidableEq

/-- Browser process lifecycle events: `opened` when `webdriver.Chrome(...)`
starts the browser, `quitEv` when `driver.quit()` terminates it. -/
inductive BrowserEvent where
  | opened
  | quitEv
deriving DecidableEq

/-- How one call of the login operation ends: a normal return carrying the
transport context, a raised exception surfacing to the caller, or
divergence (a loop/blocking call that never finishes). -/
inductive LoginOutcome where
  | returned (q : TransportContext)
  | raised
  | diverged
deriving DecidableEq

/-- Environment of one `webvpn_login` run: whether each browser call
succeeds, whether the poll loop ever observes the tunnel redirect, and the
browser state read out on success. -/
structure AutoLoginEnv where
  driverStarts : Bool
  getOk : Bool
  findUserOk : Bool
  findPassOk : Bool
  doLoginOk : Bool
  pollOk : Bool
  redirects : Bool
  getCookiesOk : Bool
  getUserAgentOk : Bool
  cookies : List Cookie
  userAgent : String

/-- `try body finally driver.quit()`: the quit event is appended to the
trace on every completed outcome; a diverging body never reaches the
finalizer. -/
def tryFinallyQuit (body : LoginOutcome) (trace : List BrowserEvent) :
    LoginOutcome × List BrowserEvent :=
  match body with
  | .diverged => (.diverged, trace)
  | o => (o, trace ++ [.quitEv])

/-- Embeds `webvpn_login` (src/main.py:197-234): start the browser (outside
the `try`), then inside `try ... except: raise ... finally: driver.quit()`
open the SSO page, fill both credential fields, trigger `doLogin()`, poll
until the tunnel domain appears in the address bar, read the cookies and
user agent, and build the session.  The `except` clause only prints and
re-raises, so it does not change the outcome. -/
def webvpn_login (env : AutoLoginEnv) : LoginOutcome × List BrowserEvent :=
  if env.driverStarts then
    let body : LoginOutcome :=
      if env.getOk then
        if env.findUserOk then
          if env.findPassOk then
            if env.doLoginOk then
              if env.pollOk then
                if env.redirects then
                  if env.getCookiesOk then
                    if env.getUserAgentOk then
                      .returned ⟨env.cookies, env.userAgent⟩
                    else .raised
                  else .raised
                else .diverged
              else .raised
            else .raised
          else .raised
        else .raised
      else .raised
    tryFinallyQuit body [.opened]
  else (.raised, [])

/-- A concrete successful envelope, for evaluating `get_json`. -/
def cexEnvelope : Json :=
  .obj [("status", .num 1), ("data", .str "payload")]

/-- Environment of one `webvpn_login_manual` run: `confirms` is whether the
human ever presses Enter at the blocking `input()`. -/
structure ManualLoginEnv where
  driverStarts : Bool
  getOk : Bool
  confirms : Bool
  getCookiesOk : Bool
  getUserAgentOk : Bool
  cookies : List Cookie
  userAgent : String

/-- Embeds `webvpn_login_manual` (src/main.py:237-266): start the browser
(outside the `try`), then inside `try ... finally: driver.quit()` open the
SSO page, block on `input()` until the human confirms, read the cookies
and user agent, and build the session. -/
def webvpn_login_manual (env : ManualLoginEnv) :
    LoginOutcome × List BrowserEvent :=
  if env.driverStarts then
    let body : LoginOutcome :=
      if env.getOk then
        if env.confirms then
          if env.getCookiesOk then
            if env.getUserAgentOk then
              .returned ⟨env.cookies, env.userAgent⟩
            else .raised
          else .raised
        else .diverged
      else .raised
    tryFinallyQuit body [.opened]
  else (.raised, [])

/-!
## Theorems
-/

/-- C1, counterexample: on a successful response whose envelope is
`{"status": 1, "data": "payload"}`, `get_json` returns the whole envelope,
not the envelope's `data` substructure, refuting the claim's third part. -/
theorem get_json_cex :
    get_json ⟨200, some cexEnvelope⟩ = .ok cexEnvelope ∧
    cexEnvelope.getField "data" = some (.str "payload") ∧
    get_json ⟨200, some cexEnvelope⟩ ≠ .ok (.str "payload") := by
  refine ⟨rfl, rfl, ?_⟩
  intro h
  have h2 : Except.ok (ε := QError) cexEnvelope = .ok (.str "payload") :=
    (show get_json ⟨200, some cexEnvelope⟩ = .ok cexEnvelope from rfl).symm.trans h
  have h3 : cexEnvelope = .str "payload" := Except.ok.inj h2
  exact Json.noConfusion h3

/-- C1 (amended): `get_json` fails with a transport error when the HTTP
status is not 200; fails with a protocol error when the body does not
decode or the envelope's `status` field is not `1`; and on success returns
the whole decoded envelope (of which `data` is a substructure). -/
theorem get_json_contract (r : HttpResponse) :
    (r.status_code ≠ 200 → get_json r = .error .transport) ∧
    (r.status_code = 200 → r.body = none → get_json r = .error .protocol) ∧
    (∀ j, r.status_code = 200 → r.body = some j →
      j.getField "status" ≠ some (.num 1) → get_json r = .error .protocol) ∧
    (∀ j, r.status_code = 200 → r.body = some j →
      j.getField "status" = some (.num 1) → get_json r = .ok j) := by
  refine ⟨?_, ?_, ?_, ?_⟩
  · intro h
    simp [get_json, h]
  · intro hs hb
    simp [get_json, hs, hb]
  · intro j hs hb hne
    rcases hg : j.getField "status" with _ | v
    · simp [get_json, hs, hb, hg]
    · rw [hg] at hne
      cases v <;> simp only [ne_eq, Option.some.injEq, Json.num.injEq] at hne <;>
        simp [get_json, hs, hb, hg, hne]
  · intro j hs hb heq
    simp [get_json, hs, hb, heq]

/-- C1 witness: the contract evaluated on a non-200 response, an
undecodable body, a bad-status envelope, and the successful envelope. -/
theorem get_json_contract_witness :
    get_json ⟨404, some cexEnvelope⟩ = .error .transport ∧
    get_json ⟨200, none⟩ = .error .protocol ∧
    get_json ⟨200, some (.obj [("status", .num 0)])⟩ = .error .protocol ∧
    get_json ⟨200, some cexEnvelope⟩ = .ok cexEnvelope :=
  ⟨(get_json_contract ⟨404, some cexEnvelope⟩).1 (by decide),
   (get_json_contract ⟨200, none⟩).2.1 rfl rfl,
   (get_json_contract ⟨200, some (.obj [("status", .num 0)])⟩).2.2.1
     (.obj [("status", .num 0)]) rfl rfl
     (by
       intro h
       have h2 : (Option.some (Json.num 0)) = some (Json.num 1) :=
         (show (Json.obj [("status", Json.num 0)]).getField "status"
             = some (Json.num 0) from rfl).symm.trans h
       exact absurd (Json.num.inj (Option.some.inj h2)) (by decide)),
   (get_json_contract ⟨200, some cexEnvelope⟩).2.2.2 cexEnvelope rfl rfl rfl⟩

/-- C2: `get_library_day` returns an invariant error exactly when the
number of day-segment rows whose date field equals the resolved date is
not one, and with exactly one matching row it returns that unique
day-segment. -/
theorem get_library_day_cardinality (day : Day) (tz : Nat → Nat) (t : Nat)
    (data_list : List DayRow) :
    ((data_list.filter fun d => d.day == resolveDateString tz t day).length ≠ 1 →
      get_library_day day tz t data_list = .error .invariant) ∧
    (∀ r, (data_list.filter fun d => d.day == resolveDateString tz t day) = [r] →
      get_library_day day tz t data_list = .ok (mkDay day r)) := by
  constructor
  · intro h
    simp only [get_library_day]
    rcases hf : data_list.filter fun d => d.day == resolveDateString tz t day with
      _ | ⟨a, _ | ⟨b, l⟩⟩
    · rw [hf]
      rfl
    · exact absurd (by rw [hf]; rfl) h
    · rw [hf]
      rfl
  · intro r hr
    simp only [get_library_day]
    rw [hr]
    rfl

/-- C2 witness: on an empty row list the resolver errors; on a singleton
list whose date field is the resolved date `1970-01-01` it returns that
day-segment. -/
theorem get_library_day_cardinality_witness :
    get_library_day Day.Today (fun _ => 0) 0 [] = .error .invariant ∧
    get_library_day Day.Today (fun _ => 0) 0
        [⟨7, "1970-01-01", "1970-01-01 08:00:00.000000", "1970-01-01 22:00:00.000000"⟩]
      = .ok (mkDay Day.Today
        ⟨7, "1970-01-01", "1970-01-01 08:00:00.000000", "1970-01-01 22:00:00.000000"⟩) :=
  ⟨(get_library_day_cardinality Day.Today (fun _ => 0) 0 []).1 (by decide),
   (get_library_day_cardinality Day.Today (fun _ => 0) 0
      [⟨7, "1970-01-01", "1970-01-01 08:00:00.000000", "1970-01-01 22:00:00.000000"⟩]).2
      ⟨7, "1970-01-01", "1970-01-01 08:00:00.000000", "1970-01-01 22:00:00.000000"⟩
      (by decide)⟩

/-- C3, counterexample: in a time zone whose UTC offset drops from +3600 s
to 0 s (a DST fall-back) between the two instants, the resolver's
tomorrow-string at `t = 84600` equals its today-string instead of the next
calendar day, refuting the claim for all time zones. -/
theorem resolve_tomorrow_cex :
    resolveDateString (fun s => if s < 100000 then 3600 else 0) 84600 Day.Tomorrow
      = resolveDateString (fun s => if s < 100000 then 3600 else 0) 84600 Day.Today ∧
    resolveDateString (fun s => if s < 100000 then 3600 else 0) 84600 Day.Today
      = "1970-01-02" ∧
    formatDate (nextDate
        (resolveDate (fun s => if s < 100000 then 3600 else 0) 84600 Day.Today))
      = "1970-01-03" ∧
    resolveDateString (fun s => if s < 100000 then 3600 else 0) 84600 Day.Tomorrow
      ≠ formatDate (nextDate
        (resolveDate (fun s => if s < 100000 then 3600 else 0) 84600 Day.Today)) := by
  refine ⟨rfl, rfl, rfl, ?_⟩
  decide

/-- C3 (amended): in any fixed-offset time zone (the UTC offset function is
constant, so no DST transition occurs inside the 24-hour window) the
resolved date for `Tomorrow` is exactly the calendar successor of the
resolved date for `Today`, for every clock instant — in particular across
month and year boundaries. -/
theorem resolve_tomorrow_fixed_offset (off t : Nat) :
    resolveDate (fun _ => off) t Day.Tomorrow
      = nextDate (resolveDate (fun _ => off) t Day.Today) ∧
    resolveDateString (fun _ => off) t Day.Tomorrow
      = formatDate (nextDate (resolveDate (fun _ => off) t Day.Today)) := by
  have key : resolveDate (fun _ => off) t Day.Tomorrow
      = nextDate (resolveDate (fun _ => off) t Day.Today) := by
    unfold resolveDate localDate
    have h1 : t + (if Day.Tomorrow = Day.Tomorrow then 86400 else 0) + off
        = (t + (if Day.Today = Day.Tomorrow then 86400 else 0) + off) + 86400 := by
      simp
      omega
    rw [h1, Nat.add_div_right _ (by omega)]
    rfl
  exact ⟨key, by rw [resolveDateString, key]⟩

/-- C4, counterexample: a valid payload row with `TotalCount = 5` and
`UnavailableSpace = 7` (no precondition excludes it) yields a Section with
`available = -2`, violating `0 ≤ available ≤ total`. -/
theorem sections_invariant_cex :
    get_library_sections ⟨10, "F", "F", 1⟩ [⟨3, "S", "S", 5, 7, 1⟩]
      = [⟨3, "S", "S", 5, -2, 10⟩] ∧
    ¬ (∀ s ∈ get_library_sections ⟨10, "F", "F", 1⟩ [⟨3, "S", "S", 5, 7, 1⟩],
        0 ≤ s.available ∧ s.available ≤ s.total) := by
  have h1 : get_library_sections ⟨10, "F", "F", 1⟩ [⟨3, "S", "S", 5, 7, 1⟩]
      = [⟨3, "S", "S", 5, -2, 10⟩] := by
    simp [get_library_sections, mkSection]
  refine ⟨h1, ?_⟩
  rw [h1]
  decide

/-- C4 (amended): every Section built by `get_library_sections` satisfies
`0 ≤ available ≤ total` provided every payload row satisfies
`0 ≤ UnavailableSpace ≤ TotalCount`; without that precondition the
invariant can fail. -/
theorem sections_invariant (floor : LibraryFloor) (rows : List SectionRow)
    (h : ∀ r ∈ rows, 0 ≤ r.UnavailableSpace ∧ r.UnavailableSpace ≤ r.TotalCount) :
    ∀ s ∈ get_library_sections floor rows, 0 ≤ s.available ∧ s.available ≤ s.total := by
  intro s hs
  rw [get_library_sections, List.mem_mergeSort] at hs
  obtain ⟨r, hr, rfl⟩ := List.mem_map.mp hs
  have hr2 := (List.mem_filter.mp hr).1
  have hb := h r hr2
  simp only [mkSection]
  omega

/-- C4 witness: the amended invariant evaluated on a well-formed payload
(`TotalCount = 5`, `UnavailableSpace = 2`). -/
theorem sections_invariant_witness :
    0 ≤ (⟨3, "S", "S", 5, 3, 10⟩ : LibrarySection).available ∧
    (⟨3, "S", "S", 5, 3, 10⟩ : LibrarySection).available
      ≤ (⟨3, "S", "S", 5, 3, 10⟩ : LibrarySection).total :=
  sections_invariant ⟨10, "F", "F", 1⟩ [⟨3, "S", "S", 5, 2, 1⟩] (by decide)
    ⟨3, "S", "S", 5, 3, 10⟩
    (by rw [get_library_sections, List.mem_mergeSort]; decide)

/-- C5: every Library, Floor and Section in a returned list arises from a
payload row whose `isValid` flag is `1` (rows with any other flag never
contribute an entity), while `get_library_seats` keeps every returned row
with no validity filter. -/
theorem validity_filtering (library : Library) (floor : LibraryFloor)
    (sect : LibrarySection) (libRows : List LibraryRow)
    (floorRows : List FloorRow) (sectRows : List SectionRow)
    (seatRows : List SeatRow) :
    (∀ x ∈ get_library_list libRows,
      ∃ r ∈ libRows, r.isValid = 1 ∧ x = mkLibrary r) ∧
    (∀ x ∈ get_library_floors library floorRows,
      ∃ r ∈ floorRows, r.isValid = 1 ∧ x = mkFloor library r) ∧
    (∀ x ∈ get_library_sections floor sectRows,
      ∃ r ∈ sectRows, r.isValid = 1 ∧ x = mkSection floor r) ∧
    get_library_seats sect seatRows = seatRows.map (mkSeat sect) := by
  refine ⟨?_, ?_, ?_, rfl⟩
  · intro x hx
    obtain ⟨r, hr, rfl⟩ := List.mem_map.mp hx
    obtain ⟨hmem, hval⟩ := List.mem_filter.mp hr
    exact ⟨r, hmem, by simpa using hval, rfl⟩
  · intro x hx
    obtain ⟨r, hr, rfl⟩ := List.mem_map.mp hx
    obtain ⟨hmem, hval⟩ := List.mem_filter.mp hr
    exact ⟨r, hmem, by simpa using hval, rfl⟩
  · intro x hx
    rw [get_library_sections, List.mem_mergeSort] at hx
    obtain ⟨r, hr, rfl⟩ := List.mem_map.mp hx
    obtain ⟨hmem, hval⟩ := List.mem_filter.mp hr
    exact ⟨r, hmem, by simpa using hval, rfl⟩

/-- C5 witness: provenance of the one Library produced from a two-row
payload whose second row is invalid, and the unfiltered seat list. -/
theorem validity_filtering_witness :
    (∃ r ∈ [(⟨1, "L", "L", "L", "L", 1⟩ : LibraryRow),
            ⟨2, "M", "M", "M", "M", 0⟩],
      r.isValid = 1 ∧ mkLibrary ⟨1, "L", "L", "L", "L", 1⟩ = mkLibrary r) ∧
    get_library_seats ⟨3, "S", "S", 5, 3, 10⟩ [⟨21, "seat", 0, 6⟩]
      = [⟨21, "seat", 0, 6⟩].map (mkSeat ⟨3, "S", "S", 5, 3, 10⟩) :=
  ⟨(validity_filtering ⟨1, "L", "L", "L", "L"⟩ ⟨9, "F", "F", 1⟩
      ⟨3, "S", "S", 5, 3, 10⟩
      [⟨1, "L", "L", "L", "L", 1⟩, ⟨2, "M", "M", "M", "M", 0⟩] [] []
      [⟨21, "seat", 0, 6⟩]).1
      (mkLibrary ⟨1, "L", "L", "L", "L", 1⟩) (by decide),
   (validity_filtering ⟨1, "L", "L", "L", "L"⟩ ⟨9, "F", "F", 1⟩
      ⟨3, "S", "S", 5, 3, 10⟩
      [⟨1, "L", "L", "L", "L", 1⟩, ⟨2, "M", "M", "M", "M", 0⟩] [] []
      [⟨21, "seat", 0, 6⟩]).2.2.2⟩

/-- C6: the section list returned by `get_library_sections` is sorted in
ascending order of the section identifier, for every floor and payload. -/
theorem sections_sorted (floor : LibraryFloor) (rows : List SectionRow) :
    List.Sorted (fun a b => a.id ≤ b.id) (get_library_sections floor rows) := by
  rw [get_library_sections]
  have h := @List.sorted_mergeSort LibrarySection
    (fun a b => decide (a.id ≤ b.id))
    (fun a b c hab hbc => by
      simp only [decide_eq_true_eq] at *
      omega)
    (fun a b => by
      simp only [Bool.or_eq_true, decide_eq_true_eq]
      omega)
    ((rows.filter fun data => data.isValid == 1).map (mkSection floor))
  exact h.imp (by simp)

/-- C7: the `spaces_old` query uses the current truncated-to-minute wall
clock as `startTime` when the day-segment's tag is `Today` and the
segment's own opening time when the tag is `Tomorrow`, and always uses the
segment's closing time as `endTime`; the wall-clock string is truncated to
minutes (two instants in the same minute give the same string). -/
theorem seats_query_times (sect : LibrarySection) (day : LibraryDay)
    (tz : Nat → Nat) (t : Nat) :
    (day.day = Day.Today → (seats_query sect day tz t).startTime = localHM tz t) ∧
    (day.day = Day.Tomorrow →
      (seats_query sect day tz t).startTime = day.startTime) ∧
    (seats_query sect day tz t).endTime = day.endTime ∧
    (∀ off a b : Nat, (a + off) / 60 = (b + off) / 60 →
      localHM (fun _ => off) a = localHM (fun _ => off) b) := by
  refine ⟨?_, ?_, rfl, ?_⟩
  · intro h
    simp [seats_query, h]
  · intro h
    simp [seats_query, h]
  · intro off a b h
    have h1 : (a + off) % 86400 / 3600 = (b + off) % 86400 / 3600 := by omega
    have h2 : (a + off) % 86400 % 3600 / 60 = (b + off) % 86400 % 3600 / 60 := by
      omega
    simp only [localHM, h1, h2]

/-- C7 witness: the query times evaluated for a `Today` segment at
`t = 3725` (01:02:05 UTC), for a `Tomorrow` segment, and minute-truncation
at 01:02:05 vs 01:02:10. -/
theorem seats_query_times_witness :
    (seats_query ⟨3, "S", "S", 5, 3, 10⟩
        ⟨7, "1970-01-01", "08:00", "22:00", Day.Today⟩
        (fun _ => 0) 3725).startTime = localHM (fun _ => 0) 3725 ∧
    (seats_query ⟨3, "S", "S", 5, 3, 10⟩
        ⟨7, "1970-01-02", "08:00", "22:00", Day.Tomorrow⟩
        (fun _ => 0) 3725).startTime = "08:00" ∧
    (seats_query ⟨3, "S", "S", 5, 3, 10⟩
        ⟨7, "1970-01-01", "08:00", "22:00", Day.Today⟩
        (fun _ => 0) 3725).endTime = "22:00" ∧
    localHM (fun _ => 0) 3725 = localHM (fun _ => 0) 3730 :=
  ⟨(seats_query_times ⟨3, "S", "S", 5, 3, 10⟩
      ⟨7, "1970-01-01", "08:00", "22:00", Day.Today⟩ (fun _ => 0) 3725).1 rfl,
   (seats_query_times ⟨3, "S", "S", 5, 3, 10⟩
      ⟨7, "1970-01-02", "08:00", "22:00", Day.Tomorrow⟩ (fun _ => 0) 3725).2.1 rfl,
   (seats_query_times ⟨3, "S", "S", 5, 3, 10⟩
      ⟨7, "1970-01-01", "08:00", "22:00", Day.Today⟩ (fun _ => 0) 3725).2.2.1,
   (seats_query_times ⟨3, "S", "S", 5, 3, 10⟩
      ⟨7, "1970-01-01", "08:00", "22:00", Day.Today⟩ (fun _ => 0) 3725).2.2.2
      0 3725 3730 (by decide)⟩

/-- C8: every Section produced by `get_library_sections` has
`available = total - UnavailableSpace` for the payload row it was built
from, whose `TotalCount` is its `total`. -/
theorem sections_available_formula (floor : LibraryFloor)
    (rows : List SectionRow) :
    ∀ s ∈ get_library_sections floor rows, ∃ r ∈ rows, r.isValid = 1 ∧
      s.total = r.TotalCount ∧ s.available = s.total - r.UnavailableSpace := by
  intro s hs
  rw [get_library_sections, List.mem_mergeSort] at hs
  obtain ⟨r, hr, rfl⟩ := List.mem_map.mp hs
  obtain ⟨hmem, hval⟩ := List.mem_filter.mp hr
  exact ⟨r, hmem, by simpa using hval, rfl, rfl⟩

/-- C8 witness: the availability formula evaluated on a section built from
the row `TotalCount = 5`, `UnavailableSpace = 2`. -/
theorem sections_available_formula_witness :
    ∃ r ∈ [(⟨3, "S", "S", 5, 2, 1⟩ : SectionRow)], r.isValid = 1 ∧
      (⟨3, "S", "S", 5, 3, 10⟩ : LibrarySection).total = r.TotalCount ∧
      (⟨3, "S", "S", 5, 3, 10⟩ : LibrarySection).available
        = (⟨3, "S", "S", 5, 3, 10⟩ : LibrarySection).total - r.UnavailableSpace :=
  sections_available_formula ⟨10, "F", "F", 1⟩ [⟨3, "S", "S", 5, 2, 1⟩]
    ⟨3, "S", "S", 5, 3, 10⟩
    (by rw [get_library_sections, List.mem_mergeSort]; decide)

/-- C9: `status_dict` labels 1 as free (空闲), 4 as under-maintenance
(维护), 6 as occupied (使用中), 7 as temporarily-vacated (临时离开); every
other code has no label (lookup is `none`, nothing is raised) and the seat
constructor passes every status code through unchanged. -/
theorem status_classifier_spec (sect : LibrarySection) (rows : List SeatRow) :
    status_dict.lookup 1 = some "空闲" ∧
    status_dict.lookup 4 = some "维护" ∧
    status_dict.lookup 6 = some "使用中" ∧
    status_dict.lookup 7 = some "临时离开" ∧
    (∀ c : Int, c ≠ 1 → c ≠ 4 → c ≠ 6 → c ≠ 7 → status_dict.lookup c = none) ∧
    (get_library_seats sect rows).map LibrarySeat.status
      = rows.map SeatRow.status := by
  refine ⟨rfl, rfl, rfl, rfl, ?_, ?_⟩
  · intro c h1 h4 h6 h7
    have e1 : (c == (1 : Int)) = false := beq_eq_false_iff_ne.mpr h1
    have e4 : (c == (4 : Int)) = false := beq_eq_false_iff_ne.mpr h4
    have e6 : (c == (6 : Int)) = false := beq_eq_false_iff_ne.mpr h6
    have e7 : (c == (7 : Int)) = false := beq_eq_false_iff_ne.mpr h7
    simp [status_dict, List.lookup, e1, e4, e6, e7]
  · simp [get_library_seats, mkSeat]

/-- C9 witness: the unknown code 99 has no label, and a seat whose source
row carries status 99 keeps status 99. -/
theorem status_classifier_witness :
    status_dict.lookup 99 = none ∧
    (get_library_seats ⟨3, "S", "S", 5, 3, 10⟩ [⟨21, "seat", 0, 99⟩]).map
        LibrarySeat.status = [⟨21, "seat", 0, 99⟩].map SeatRow.status :=
  ⟨(status_classifier_spec ⟨3, "S", "S", 5, 3, 10⟩ []).2.2.2.2.1 99
      (by decide) (by decide) (by decide) (by decide),
   (status_classifier_spec ⟨3, "S", "S", 5, 3, 10⟩
      [⟨21, "seat", 0, 99⟩]).2.2.2.2.2⟩

/-- C10: in both login variants, on every completed path — normal return
or raised error — the browser quit event is the last event of the trace
(the browser is terminated before the outcome surfaces); a diverging run
never completes, and when the browser never started there is nothing to
terminate. -/
theorem login_always_quits (envA : AutoLoginEnv) (envM : ManualLoginEnv) :
    ((webvpn_login envA).1 ≠ .diverged →
      BrowserEvent.opened ∈ (webvpn_login envA).2 →
      (webvpn_login envA).2.getLast? = some BrowserEvent.quitEv) ∧
    ((webvpn_login_manual envM).1 ≠ .diverged →
      BrowserEvent.opened ∈ (webvpn_login_manual envM).2 →
      (webvpn_login_manual envM).2.getLast? = some BrowserEvent.quitEv) := by
  have haux : ∀ body : LoginOutcome,
      (tryFinallyQuit body [.opened]).1 ≠ .diverged →
      (tryFinallyQuit body [.opened]).2.getLast? = some BrowserEvent.quitEv := by
    intro body h
    cases body
    · rfl
    · rfl
    · exact absurd rfl h
  constructor
  · intro h hm
    by_cases hd : envA.driverStarts
    · rw [webvpn_login, if_pos hd] at h ⊢
      exact haux _ h
    · rw [webvpn_login, if_neg hd] at hm
      simp at hm
  · intro h hm
    by_cases hd : envM.driverStarts
    · rw [webvpn_login_manual, if_pos hd] at h ⊢
      exact haux _ h
    · rw [webvpn_login_manual, if_neg hd] at hm
      simp at hm

/-- C10 witness: with every browser call succeeding, both variants end
their trace with the quit event. -/
theorem login_always_quits_witness :
    (webvpn_login
        ⟨true, true, true, true, true, true, true, true, true, [], "UA"⟩).2.getLast?
      = some BrowserEvent.quitEv ∧
    (webvpn_login_manual
        ⟨true, true, true, true, true, [], "UA"⟩).2.getLast?
      = some BrowserEvent.quitEv :=
  ⟨(login_always_quits
      ⟨true, true, true, true, true, true, true, true, true, [], "UA"⟩
      ⟨true, true, true, true, true, [], "UA"⟩).1 (by decide) (by decide),
   (login_always_quits
      ⟨true, true, true, true, true, true, true, true, true, [], "UA"⟩
      ⟨true, true, true, true, true, [], "UA"⟩).2 (by decide) (by decide)⟩
